import Mathlib

/-!
Shallow embedding of the `improv` actor runtime (src/lib.rs, src/result.rs,
src/tokio_impl.rs, src/utils.rs).

Modelling conventions:
- Shared mutable cells (the `Arc<RwLock<ActorState>>` lifecycle cell and the
  unbounded channel) are passed explicitly as an `ActorCell` value; every
  operation returns the updated cell.
- Machine integers are `Nat` with explicit `% 2^64` / `% 2^16` where the Rust
  code wraps (`u64` shift, `AtomicU16::fetch_add`).
- Time (`Instant::now().duration_since(epoch).as_millis()`) is an external
  input, passed as an explicit `nowMs : Nat` argument.
- The spawned dispatch task is modelled as a function consuming the finite
  list of messages the channel delivers in one execution; the running flag,
  which other tasks may flip concurrently, is a function `Nat → Bool` giving
  the value the loop observes at each polling boundary.
- Actor bodies (`&mut self`) are explicit state values of type `σ`; the async
  `start`/`handle`/`stop` hooks become pure state transformers.
-/

/-- `ActorState` from src/lib.rs: Healthy / Stopped / Crashed. -/
inductive ActorState : Type
  | Healthy
  | Stopped
  | Crashed
deriving DecidableEq, Repr

/-- `ActorOk` from src/result.rs: Success / GracefulEnd. -/
inductive ActorOk : Type
  | Success
  | GracefulEnd
deriving DecidableEq, Repr

/-- `ActorErr` from src/result.rs: only the `Crashing(T)` variant exists
(`Reporting` is commented out in the source). -/
inductive ActorErr (ε : Type) : Type
  | Crashing (e : ε)

/-- `ActorResult<Err> = Result<ActorOk, ActorErr<Err>>` from src/result.rs. -/
abbrev ActorResult (ε : Type) : Type := Except (ActorErr ε) ActorOk

/-- The `Actor` trait from src/lib.rs. The body (`&mut self`) is an explicit
state of type `σ`; each hook returns its `ActorResult` together with the
updated body. `typeId` models `TypeId::of::<T>()`. -/
structure Actor (σ μ ε : Type) : Type where
  typeId : Nat
  start : σ → ActorResult ε × σ
  handle : σ → μ → ActorResult ε × σ
  stop : σ → ActorResult ε × σ

/-- The state shared (via `Arc`) between an `ActorRef`, its clones and the
dispatch loop: the channel queue and the `RwLock<ActorState>` cell, plus the
actor body owned by the loop. -/
structure ActorCell (σ μ : Type) : Type where
  queue : List μ
  state : ActorState
  body : σ

/-- The per-clone data of `ActorRef<T>` from src/lib.rs (`id` and the
`TypeId` tag); the `Arc`-shared channel and state cell are the `ActorCell`,
passed explicitly. -/
structure ActorRef : Type where
  id : Nat
  typeTag : Nat

/-- `impl Clone for ActorRef`: copies `id` and `type`; the `tx`/`state`
`Arc::clone`s share the same cell, which the model keeps external. -/
def ActorRef.clone (r : ActorRef) : ActorRef :=
  { id := r.id, typeTag := r.typeTag }

/-- `impl PartialEq for ActorRef`: equality is `self.id == other.id`. -/
def ActorRef.beq (x y : ActorRef) : Bool :=
  x.id == y.id

/-- `ActorRef::send` from src/lib.rs: read the shared state; if it is not
Healthy return `Err(state)` without touching the channel, else push the
message and return `Ok(())`. -/
def ActorRef.send (cell : ActorCell σ μ) (msg : μ) :
    Except ActorState Unit × ActorCell σ μ :=
  if cell.state ≠ ActorState.Healthy then
    (Except.error cell.state, cell)
  else
    (Except.ok (), { cell with queue := cell.queue ++ [msg] })

/-- Iterated `send` through one handle: the results of each call and the
final cell. -/
def sendAll (cell : ActorCell σ μ) : List μ → List (Except ActorState Unit) × ActorCell σ μ
  | [] => ([], cell)
  | m :: ms =>
    let r := ActorRef.send cell m
    let rs := sendAll r.2 ms
    (r.1 :: rs.1, rs.2)

/-- `TokioActorDriver` from src/tokio_impl.rs. `sf_epoch` (an `Instant`) is
not a value; elapsed milliseconds are supplied at each call. `sf_increment`
is the `AtomicU16` (value `< 2^16`), `is_running` the shared `AtomicBool`. -/
structure TokioActorDriver : Type where
  sf_increment : Nat
  is_running : Bool

/-- `impl Default for TokioActorDriver`: counter 0, running flag
`AtomicBool::default()`, i.e. `false`. -/
def TokioActorDriver.default : TokioActorDriver :=
  { sf_increment := 0, is_running := false }

/-- `TokioActorDriver::generate_snowflake`: `inc = fetch_add(1)` on the u16
counter, `dur` = elapsed ms as u64, result `(dur << 16) | inc as u64` with
u64 wrapping on the shift. Returns the id and the driver with the stepped
counter. -/
def TokioActorDriver.generate_snowflake (d : TokioActorDriver) (nowMs : Nat) :
    Nat × TokioActorDriver :=
  let inc := d.sf_increment % 2 ^ 16
  let dur := nowMs % 2 ^ 64
  ((((dur <<< 16) % 2 ^ 64) ||| inc),
   { d with sf_increment := (d.sf_increment + 1) % 2 ^ 16 })

/-- `loopTransition` is the `match actor.handle(msg)` state update inside the
dispatch loop of `TokioActorDriver::register`: `Ok(Success)` leaves the state
as is, `Ok(GracefulEnd)` writes Stopped, `Err(Crashing(_))` writes Crashed
(the error payload is dropped). -/
def loopTransition (st : ActorState) (res : ActorResult ε) : ActorState :=
  match res with
  | Except.ok ok => if ok = ActorOk.GracefulEnd then ActorState.Stopped else st
  | Except.error e =>
    match e with
    | ActorErr.Crashing _ => ActorState.Crashed

/-- Result of one execution of the spawned dispatch loop: the messages passed
to `handle` in order, the state written after each `handle` call, the final
shared state, the final actor body, and the messages left in the channel.
The error payload of a `Crashing` outcome appears nowhere in this type: the
loop discards it. -/
structure LoopResult (σ μ : Type) : Type where
  handled : List μ
  states : List ActorState
  state : ActorState
  body : σ
  remaining : List μ

/-- The dispatch loop spawned by `TokioActorDriver::register`, as a function
of the messages the channel delivers. Each iteration `i`: (1) if the running
flag reads false, break; (2) await the next message, exiting when the channel
is exhausted; (3) take the write lock and break without processing if the
state is not Healthy (the received message is dropped); (4) run `handle`;
(5) apply `loopTransition` to the state; repeat. -/
def dispatchLoop (a : Actor σ μ ε) (running : Nat → Bool) :
    List μ → Nat → ActorState → σ → LoopResult σ μ
  | [], _, st, b => ⟨[], [], st, b, []⟩
  | msg :: rest, i, st, b =>
    if running i = false then ⟨[], [], st, b, msg :: rest⟩
    else if st ≠ ActorState.Healthy then ⟨[], [], st, b, rest⟩
    else
      let hr := a.handle b msg
      let st' := loopTransition st hr.1
      let r := dispatchLoop a running rest (i + 1) st' hr.2
      ⟨msg :: r.handled, st' :: r.states, r.state, r.body, r.remaining⟩

/-- The outcome of `TokioActorDriver::register`: the returned `ActorRef`, the
shared cell backing it, the returned `Option<T::Err>`, and whether the
dispatch loop task was spawned. -/
structure Registration (σ μ ε : Type) : Type where
  ref : ActorRef
  cell : ActorCell σ μ
  err : Option ε
  loop_spawned : Bool

/-- `TokioActorDriver::register` from src/tokio_impl.rs: generate an id,
create the (empty) channel, synchronously run `start()`, map its result to
the initial state and optional error, build the `ActorRef`, spawn the
dispatch loop only when the state is Healthy, and return the handle together
with the error. -/
def TokioActorDriver.register (d : TokioActorDriver) (a : Actor σ μ ε) (b : σ)
    (nowMs : Nat) : TokioActorDriver × Registration σ μ ε :=
  let sf := d.generate_snowflake nowMs
  let startRes := a.start b
  let se : ActorState × Option ε :=
    match startRes.1 with
    | Except.ok ActorOk.Success => (ActorState.Healthy, none)
    | Except.ok ActorOk.GracefulEnd => (ActorState.Stopped, none)
    | Except.error (ActorErr.Crashing e) => (ActorState.Crashed, some e)
  (sf.2,
   { ref := { id := sf.1, typeTag := a.typeId },
     cell := { queue := [], state := se.1, body := startRes.2 },
     err := se.2,
     loop_spawned := decide (se.1 = ActorState.Healthy) })

/-- `TokioActorDriver::stop`: `is_running.swap(false, ...)` — only the flag
changes; nothing is drained or joined. -/
def TokioActorDriver.stop (d : TokioActorDriver) : TokioActorDriver :=
  { d with is_running := false }

/-- `ActorSystem` from src/lib.rs: holds the driver; its `is_running` field
is a clone of the driver's shared `Arc<AtomicBool>`, so reading it reads the
driver's flag. -/
structure ActorSystem : Type where
  driver : TokioActorDriver

/-- `ActorSystem::is_running`: load the shared running flag. -/
def ActorSystem.is_running (s : ActorSystem) : Bool :=
  s.driver.is_running

/-- `ActorSystem::stop`: delegates to the driver's `stop`. -/
def ActorSystem.stop (s : ActorSystem) : ActorSystem :=
  { driver := s.driver.stop }

/-- `SnowflakeProducer` from src/utils.rs (same shape as the driver's
generator). -/
structure SnowflakeProducer : Type where
  increment : Nat

/-- `SnowflakeProducer::produce` from src/utils.rs: identical formula to
`generate_snowflake`. -/
def SnowflakeProducer.produce (p : SnowflakeProducer) (nowMs : Nat) :
    Nat × SnowflakeProducer :=
  let inc := p.increment % 2 ^ 16
  let dur := nowMs % 2 ^ 64
  ((((dur <<< 16) % 2 ^ 64) ||| inc),
   { increment := (p.increment + 1) % 2 ^ 16 })

/-- A driver-level operation: the only code paths that touch a
`TokioActorDriver`'s fields are `register` (steps the snowflake counter) and
`stop` (clears the flag); `is_running` only reads. -/
inductive DriverOp (σ μ ε : Type) : Type
  | opRegister (a : Actor σ μ ε) (b : σ) (nowMs : Nat)
  | opStop

/-- Apply one driver operation to the driver state. -/
def applyDriverOp (d : TokioActorDriver) : DriverOp σ μ ε → TokioActorDriver
  | DriverOp.opRegister a b nowMs => (d.register a b nowMs).1
  | DriverOp.opStop => d.stop

/-- Apply a sequence of driver operations. -/
def applyDriverOps (d : TokioActorDriver) (ops : List (DriverOp σ μ ε)) :
    TokioActorDriver :=
  ops.foldl applyDriverOp d

/-! ### Helper lemmas -/

/-- The single lifecycle step relation the runtime allows: stay put, or move
out of Healthy into a terminal state. -/
def lifecycleStep (x y : ActorState) : Prop :=
  x = y ∨ (x = ActorState.Healthy ∧ (y = ActorState.Stopped ∨ y = ActorState.Crashed))

theorem loopTransition_healthy_step (res : ActorResult ε) :
    lifecycleStep ActorState.Healthy (loopTransition ActorState.Healthy res) := by
  cases res with
  | ok ok =>
    cases ok with
    | Success => exact Or.inl rfl
    | GracefulEnd => exact Or.inr ⟨rfl, Or.inl rfl⟩
  | error e =>
    cases e with
    | Crashing e => exact Or.inr ⟨rfl, Or.inr rfl⟩

theorem dispatchLoop_flag_false (a : Actor σ μ ε) (running : Nat → Bool)
    (q : List μ) (i : Nat) (st : ActorState) (b : σ) (h : running i = false) :
    dispatchLoop a running q i st b = ⟨[], [], st, b, q⟩ := by
  cases q with
  | nil => rfl
  | cons m rest => simp [dispatchLoop, h]

theorem dispatchLoop_not_healthy (a : Actor σ μ ε) (running : Nat → Bool)
    (q : List μ) (i : Nat) (st : ActorState) (b : σ) (h : st ≠ ActorState.Healthy) :
    (dispatchLoop a running q i st b).handled = [] ∧
    (dispatchLoop a running q i st b).states = [] ∧
    (dispatchLoop a running q i st b).state = st ∧
    (dispatchLoop a running q i st b).body = b := by
  cases q with
  | nil => exact ⟨rfl, rfl, rfl, rfl⟩
  | cons m rest =>
    cases hr : running i with
    | false => rw [dispatchLoop_flag_false a running _ i st b hr]; exact ⟨rfl, rfl, rfl, rfl⟩
    | true => simp [dispatchLoop, hr, h]

theorem dispatchLoop_cons_healthy_handled (a : Actor σ μ ε) (running : Nat → Bool)
    (m : μ) (rest : List μ) (i : Nat) (b : σ) (hr : running i = true) :
    (dispatchLoop a running (m :: rest) i ActorState.Healthy b).handled =
      m :: (dispatchLoop a running rest (i + 1)
        (loopTransition ActorState.Healthy (a.handle b m).1) (a.handle b m).2).handled := by
  simp [dispatchLoop, hr]

theorem dispatchLoop_cons_healthy_states (a : Actor σ μ ε) (running : Nat → Bool)
    (m : μ) (rest : List μ) (i : Nat) (b : σ) (hr : running i = true) :
    (dispatchLoop a running (m :: rest) i ActorState.Healthy b).states =
      loopTransition ActorState.Healthy (a.handle b m).1 ::
        (dispatchLoop a running rest (i + 1)
          (loopTransition ActorState.Healthy (a.handle b m).1) (a.handle b m).2).states := by
  simp [dispatchLoop, hr]

theorem dispatchLoop_cons_healthy_state (a : Actor σ μ ε) (running : Nat → Bool)
    (m : μ) (rest : List μ) (i : Nat) (b : σ) (hr : running i = true) :
    (dispatchLoop a running (m :: rest) i ActorState.Healthy b).state =
      (dispatchLoop a running rest (i + 1)
        (loopTransition ActorState.Healthy (a.handle b m).1) (a.handle b m).2).state := by
  simp [dispatchLoop, hr]

theorem dispatchLoop_cons_healthy_body (a : Actor σ μ ε) (running : Nat → Bool)
    (m : μ) (rest : List μ) (i : Nat) (b : σ) (hr : running i = true) :
    (dispatchLoop a running (m :: rest) i ActorState.Healthy b).body =
      (dispatchLoop a running rest (i + 1)
        (loopTransition ActorState.Healthy (a.handle b m).1) (a.handle b m).2).body := by
  simp [dispatchLoop, hr]

theorem dispatchLoop_handled_front (a : Actor σ μ ε) (running : Nat → Bool) :
    ∀ (q : List μ) (i : Nat) (st : ActorState) (b : σ),
    ∃ t, q = (dispatchLoop a running q i st b).handled ++ t := by
  intro q
  induction q with
  | nil => intro i st b; exact ⟨[], rfl⟩
  | cons m rest ih =>
    intro i st b
    cases hr : running i with
    | false =>
      rw [dispatchLoop_flag_false a running _ i st b hr]
      exact ⟨m :: rest, rfl⟩
    | true =>
      by_cases hs : st = ActorState.Healthy
      · subst hs
        obtain ⟨t, ht⟩ :=
          ih (i + 1) (loopTransition ActorState.Healthy (a.handle b m).1) (a.handle b m).2
        rw [dispatchLoop_cons_healthy_handled a running m rest i b hr]
        exact ⟨t, by rw [List.cons_append, ← ht]⟩
      · rw [(dispatchLoop_not_healthy a running _ i st b hs).1]
        exact ⟨m :: rest, rfl⟩

theorem dispatchLoop_body_foldl (a : Actor σ μ ε) (running : Nat → Bool) :
    ∀ (q : List μ) (i : Nat) (st : ActorState) (b : σ),
    (dispatchLoop a running q i st b).body =
      (dispatchLoop a running q i st b).handled.foldl (fun s m => (a.handle s m).2) b := by
  intro q
  induction q with
  | nil => intro i st b; rfl
  | cons m rest ih =>
    intro i st b
    cases hr : running i with
    | false => rw [dispatchLoop_flag_false a running _ i st b hr]; rfl
    | true =>
      by_cases hs : st = ActorState.Healthy
      · subst hs
        rw [dispatchLoop_cons_healthy_handled a running m rest i b hr,
            dispatchLoop_cons_healthy_body a running m rest i b hr, List.foldl_cons]
        exact ih (i + 1) (loopTransition ActorState.Healthy (a.handle b m).1) (a.handle b m).2
      · obtain ⟨h1, _, _, h4⟩ := dispatchLoop_not_healthy a running (m :: rest) i st b hs
        rw [h1, h4]
        rfl

theorem dispatchLoop_length (a : Actor σ μ ε) (running : Nat → Bool) :
    ∀ (q : List μ) (i : Nat) (st : ActorState) (b : σ),
    (dispatchLoop a running q i st b).handled.length =
      (dispatchLoop a running q i st b).states.length := by
  intro q
  induction q with
  | nil => intro i st b; rfl
  | cons m rest ih =>
    intro i st b
    cases hr : running i with
    | false => rw [dispatchLoop_flag_false a running _ i st b hr]; rfl
    | true =>
      by_cases hs : st = ActorState.Healthy
      · subst hs
        rw [dispatchLoop_cons_healthy_handled a running m rest i b hr,
            dispatchLoop_cons_healthy_states a running m rest i b hr,
            List.length_cons, List.length_cons]
        exact congrArg Nat.succ
          (ih (i + 1) (loopTransition ActorState.Healthy (a.handle b m).1) (a.handle b m).2)
      · obtain ⟨h1, h2, _, _⟩ := dispatchLoop_not_healthy a running (m :: rest) i st b hs
        rw [h1, h2]
        rfl

theorem dispatchLoop_chain (a : Actor σ μ ε) (running : Nat → Bool) :
    ∀ (q : List μ) (i : Nat) (st : ActorState) (b : σ),
    List.Chain' lifecycleStep (st :: (dispatchLoop a running q i st b).states) := by
  intro q
  induction q with
  | nil => intro i st b; simp [dispatchLoop]
  | cons m rest ih =>
    intro i st b
    cases hr : running i with
    | false => rw [dispatchLoop_flag_false a running _ i st b hr]; simp
    | true =>
      by_cases hs : st = ActorState.Healthy
      · subst hs
        rw [dispatchLoop_cons_healthy_states a running m rest i b hr, List.chain'_cons]
        exact ⟨loopTransition_healthy_step _,
          ih (i + 1) (loopTransition ActorState.Healthy (a.handle b m).1) (a.handle b m).2⟩
      · rw [(dispatchLoop_not_healthy a running (m :: rest) i st b hs).2.1]
        simp

theorem dispatchLoop_nonhealthy_last (a : Actor σ μ ε) (running : Nat → Bool) :
    ∀ (q : List μ) (i : Nat) (st : ActorState) (b : σ)
      (pre suf : List ActorState) (x : ActorState),
    (dispatchLoop a running q i st b).states = pre ++ x :: suf →
    x ≠ ActorState.Healthy →
    suf = [] ∧ (dispatchLoop a running q i st b).state = x ∧
      (dispatchLoop a running q i st b).handled.length = pre.length + 1 := by
  intro q
  induction q with
  | nil =>
    intro i st b pre suf x hdecomp hx
    exact absurd hdecomp (by simp [dispatchLoop])
  | cons m rest ih =>
    intro i st b pre suf x hdecomp hx
    cases hr : running i with
    | false =>
      rw [dispatchLoop_flag_false a running _ i st b hr] at hdecomp ⊢
      exact absurd hdecomp (by simp)
    | true =>
      by_cases hs : st = ActorState.Healthy
      · subst hs
        rw [dispatchLoop_cons_healthy_states a running m rest i b hr] at hdecomp
        rw [dispatchLoop_cons_healthy_state a running m rest i b hr,
            dispatchLoop_cons_healthy_handled a running m rest i b hr]
        cases pre with
        | nil =>
          rw [List.nil_append] at hdecomp
          have hx1 : loopTransition ActorState.Healthy (a.handle b m).1 = x :=
            (List.cons.inj hdecomp).1
          have hsuf : (dispatchLoop a running rest (i + 1)
              (loopTransition ActorState.Healthy (a.handle b m).1) (a.handle b m).2).states =
              suf := (List.cons.inj hdecomp).2
          have hnh := dispatchLoop_not_healthy a running rest (i + 1)
            (loopTransition ActorState.Healthy (a.handle b m).1) (a.handle b m).2
            (by rw [hx1]; exact hx)
          refine ⟨?_, ?_, ?_⟩
          · rw [← hsuf]; exact hnh.2.1
          · rw [hnh.2.2.1, hx1]
          · rw [hnh.1]; rfl
        | cons p pre2 =>
          rw [List.cons_append] at hdecomp
          have hrest : (dispatchLoop a running rest (i + 1)
              (loopTransition ActorState.Healthy (a.handle b m).1) (a.handle b m).2).states =
              pre2 ++ x :: suf := (List.cons.inj hdecomp).2
          obtain ⟨h1, h2, h3⟩ := ih (i + 1)
            (loopTransition ActorState.Healthy (a.handle b m).1) (a.handle b m).2
            pre2 suf x hrest hx
          refine ⟨h1, h2, ?_⟩
          rw [List.length_cons, h3, List.length_cons]
      · rw [(dispatchLoop_not_healthy a running (m :: rest) i st b hs).2.1] at hdecomp
        exact absurd hdecomp (by simp)

theorem send_state_eq (cell : ActorCell σ μ) (m : μ) :
    ((ActorRef.send cell m).2).state = cell.state := by
  by_cases h : cell.state = ActorState.Healthy
  · simp [ActorRef.send, h]
  · simp [ActorRef.send, h]

theorem sendAll_dead (ms : List μ) (cell : ActorCell σ μ)
    (h : cell.state ≠ ActorState.Healthy) :
    (sendAll cell ms).1 = ms.map (fun _ => Except.error cell.state) ∧
      (sendAll cell ms).2 = cell := by
  induction ms with
  | nil => exact ⟨rfl, rfl⟩
  | cons m rest ih =>
    have hsend : ActorRef.send cell m = (Except.error cell.state, cell) := by
      simp [ActorRef.send, h]
    simp only [sendAll, hsend]
    exact ⟨by simp [ih.1], ih.2⟩

theorem sendAll_healthy (ms : List μ) :
    ∀ (cell : ActorCell σ μ), cell.state = ActorState.Healthy →
    (sendAll cell ms).1 = ms.map (fun _ => Except.ok ()) ∧
      (sendAll cell ms).2 = { cell with queue := cell.queue ++ ms } := by
  induction ms with
  | nil => intro cell h; exact ⟨rfl, by simp [sendAll]⟩
  | cons m rest ih =>
    intro cell h
    have hsend : ActorRef.send cell m =
        (Except.ok (), { cell with queue := cell.queue ++ [m] }) := by
      simp [ActorRef.send, h]
    simp only [sendAll, hsend]
    obtain ⟨h1, h2⟩ := ih { cell with queue := cell.queue ++ [m] } h
    refine ⟨by simp [h1], ?_⟩
    rw [h2]
    simp

/-- Arithmetic form of the snowflake bit-packing `(dur << 16) | inc`:
high 48 bits are the (truncated) milliseconds, low 16 bits the counter. -/
theorem snowflake_arith (ms c : Nat) :
    (((ms % 2 ^ 64) <<< 16) % 2 ^ 64) ||| (c % 2 ^ 16) =
      (ms % 2 ^ 48) * 2 ^ 16 + c % 2 ^ 16 := by
  have hb : c % 2 ^ 16 < 2 ^ 16 := Nat.mod_lt _ (by norm_num)
  have hsplit : (2 : Nat) ^ 64 = 2 ^ 48 * 2 ^ 16 := by norm_num
  rw [Nat.shiftLeft_eq, hsplit, Nat.mul_mod_mul_right,
      Nat.mod_mod_of_dvd ms ⟨2 ^ 16, rfl⟩,
      mul_comm (ms % 2 ^ 48) (2 ^ 16), ← Nat.mul_add_lt_is_or hb,
      mul_comm (2 ^ 16) (ms % 2 ^ 48)]

theorem produce_val (p : SnowflakeProducer) (ms : Nat) :
    (p.produce ms).1 = (ms % 2 ^ 48) * 2 ^ 16 + p.increment % 2 ^ 16 :=
  snowflake_arith ms p.increment

theorem generate_snowflake_val (d : TokioActorDriver) (ms : Nat) :
    (d.generate_snowflake ms).1 = (ms % 2 ^ 48) * 2 ^ 16 + d.sf_increment % 2 ^ 16 :=
  snowflake_arith ms d.sf_increment

theorem register_ref_id (d : TokioActorDriver) (a : Actor σ μ ε) (b : σ) (ms : Nat) :
    ((d.register a b ms).2).ref.id =
      (ms % 2 ^ 48) * 2 ^ 16 + d.sf_increment % 2 ^ 16 :=
  generate_snowflake_val d ms

theorem register_driver_increment (d : TokioActorDriver) (a : Actor σ μ ε) (b : σ)
    (ms : Nat) :
    ((d.register a b ms).1).sf_increment = (d.sf_increment + 1) % 2 ^ 16 := rfl

theorem register_driver_running (d : TokioActorDriver) (a : Actor σ μ ε) (b : σ)
    (ms : Nat) :
    ((d.register a b ms).1).is_running = d.is_running := rfl

/-- A concrete actor used for witnesses: sums the messages it receives. -/
def testActor : Actor Nat Nat String :=
  { typeId := 0,
    start := fun s => (Except.ok ActorOk.Success, s),
    handle := fun s m => (Except.ok ActorOk.Success, s + m),
    stop := fun s => (Except.ok ActorOk.GracefulEnd, s) }

/-- A concrete actor whose `start` fails with `Crashing "boom"`. -/
def crashingActor : Actor Nat Nat String :=
  { typeId := 1,
    start := fun s => (Except.error (ActorErr.Crashing "boom"), s),
    handle := fun s _ => (Except.ok ActorOk.Success, s),
    stop := fun s => (Except.ok ActorOk.GracefulEnd, s) }

/-- A concrete actor whose `start` ends gracefully at once. -/
def gracefulActor : Actor Nat Nat String :=
  { typeId := 2,
    start := fun s => (Except.ok ActorOk.GracefulEnd, s),
    handle := fun s _ => (Except.ok ActorOk.Success, s),
    stop := fun s => (Except.ok ActorOk.GracefulEnd, s) }

/-- A concrete actor that crashes handling the message `7`. -/
def crashOnSevenActor : Actor Nat Nat String :=
  { typeId := 3,
    start := fun s => (Except.ok ActorOk.Success, s),
    handle := fun s m =>
      (if m = 7 then Except.error (ActorErr.Crashing "seven") else Except.ok ActorOk.Success,
       s + m),
    stop := fun s => (Except.ok ActorOk.GracefulEnd, s) }

/-- Driver after `n` successive `register` calls (all in the same
millisecond window `nowMs = 0`), starting from the default driver. -/
def regIter : Nat → TokioActorDriver
  | 0 => TokioActorDriver.default
  | n + 1 => ((regIter n).register testActor 0 0).1

theorem regIter_increment : ∀ n, (regIter n).sf_increment = n % 2 ^ 16 := by
  intro n
  induction n with
  | zero => rfl
  | succ k ih =>
    have hstep : (regIter (k + 1)).sf_increment =
        ((regIter k).sf_increment + 1) % 2 ^ 16 := rfl
    rw [hstep, ih]
    omega

/-- Producer after `n` successive `produce` calls in the same millisecond,
starting from `Default` (counter 0). -/
def produceIter (ms : Nat) : Nat → SnowflakeProducer
  | 0 => { increment := 0 }
  | n + 1 => ((produceIter ms n).produce ms).2

theorem produceIter_increment (ms : Nat) : ∀ n, (produceIter ms n).increment = n % 2 ^ 16 := by
  intro n
  induction n with
  | zero => rfl
  | succ k ih =>
    have hstep : (produceIter ms (k + 1)).increment =
        ((produceIter ms k).increment + 1) % 2 ^ 16 := rfl
    rw [hstep, ih]
    omega

theorem applyDriverOp_running_false (d : TokioActorDriver) (op : DriverOp σ μ ε)
    (h : d.is_running = false) : (applyDriverOp d op).is_running = false := by
  cases op with
  | opRegister a b now => exact h
  | opStop => rfl

theorem applyDriverOps_running_false (ops : List (DriverOp σ μ ε)) :
    ∀ d : TokioActorDriver, d.is_running = false →
    (applyDriverOps d ops).is_running = false := by
  induction ops with
  | nil => intro d h; exact h
  | cons op rest ih =>
    intro d h
    exact ih (applyDriverOp d op) (applyDriverOp_running_false d op h)

theorem register_success (d : TokioActorDriver) (a : Actor σ μ ε) (b : σ)
    (ms : Nat) (h : (a.start b).1 = Except.ok ActorOk.Success) :
    ((d.register a b ms).2).cell.state = ActorState.Healthy ∧
    ((d.register a b ms).2).err = none ∧
    ((d.register a b ms).2).loop_spawned = true := by
  simp [TokioActorDriver.register, h]

theorem register_graceful (d : TokioActorDriver) (a : Actor σ μ ε) (b : σ)
    (ms : Nat) (h : (a.start b).1 = Except.ok ActorOk.GracefulEnd) :
    ((d.register a b ms).2).cell.state = ActorState.Stopped ∧
    ((d.register a b ms).2).err = none ∧
    ((d.register a b ms).2).loop_spawned = false := by
  simp [TokioActorDriver.register, h]

theorem register_crashing (d : TokioActorDriver) (a : Actor σ μ ε) (b : σ)
    (ms : Nat) (e : ε) (h : (a.start b).1 = Except.error (ActorErr.Crashing e)) :
    ((d.register a b ms).2).cell.state = ActorState.Crashed ∧
    ((d.register a b ms).2).err = some e ∧
    ((d.register a b ms).2).loop_spawned = false := by
  simp [TokioActorDriver.register, h]

theorem dispatchLoop_all_success (a : Actor σ μ ε) (running : Nat → Bool)
    (hrun : ∀ j, running j = true)
    (hsucc : ∀ (s : σ) (m : μ), (a.handle s m).1 = Except.ok ActorOk.Success) :
    ∀ (q : List μ) (i : Nat) (b : σ),
    (dispatchLoop a running q i ActorState.Healthy b).handled = q := by
  intro q
  induction q with
  | nil => intro i b; rfl
  | cons m rest ih =>
    intro i b
    have hst : loopTransition ActorState.Healthy (a.handle b m).1 = ActorState.Healthy := by
      rw [hsucc]; rfl
    rw [dispatchLoop_cons_healthy_handled a running m rest i b (hrun i), hst,
        ih (i + 1) (a.handle b m).2]

/-! ### Claims -/

/-- C1: for every actor, `register` synchronously invokes `start()` exactly
once (the stored body is the result of a single application of `start` to the
given body), maps its result to the initial lifecycle state — Success ↦
Healthy with no error, GracefulEnd ↦ Stopped with no error, Crashing(e) ↦
Crashed with `some e` — builds and returns the handle regardless of the
outcome (its id is always the generated snowflake), and the returned error is
`some` if and only if `start` returned Crashing. -/
theorem claim_C1_register_start_mapping {σ μ ε : Type} (d : TokioActorDriver)
    (a : Actor σ μ ε) (b : σ) (ms : Nat) :
    ((d.register a b ms).2).cell.body = (a.start b).2 ∧
    ((d.register a b ms).2).ref.id = (d.generate_snowflake ms).1 ∧
    ((a.start b).1 = Except.ok ActorOk.Success →
      ((d.register a b ms).2).cell.state = ActorState.Healthy ∧
      ((d.register a b ms).2).err = none) ∧
    ((a.start b).1 = Except.ok ActorOk.GracefulEnd →
      ((d.register a b ms).2).cell.state = ActorState.Stopped ∧
      ((d.register a b ms).2).err = none) ∧
    (∀ e : ε, (a.start b).1 = Except.error (ActorErr.Crashing e) →
      ((d.register a b ms).2).cell.state = ActorState.Crashed ∧
      ((d.register a b ms).2).err = some e) ∧
    (((d.register a b ms).2).err.isSome = true ↔
      ∃ e : ε, (a.start b).1 = Except.error (ActorErr.Crashing e)) := by
  refine ⟨rfl, rfl, ?_, ?_, ?_, ?_⟩
  · intro h
    exact ⟨(register_success d a b ms h).1, (register_success d a b ms h).2.1⟩
  · intro h
    exact ⟨(register_graceful d a b ms h).1, (register_graceful d a b ms h).2.1⟩
  · intro e h
    exact ⟨(register_crashing d a b ms e h).1, (register_crashing d a b ms e h).2.1⟩
  · cases hst : (a.start b).1 with
    | ok ok => cases ok <;> simp [TokioActorDriver.register, hst]
    | error e =>
      cases e with
      | Crashing e => simp [TokioActorDriver.register, hst]

/-- Witness for C1: a successfully starting actor yields a Healthy cell with
no error, a gracefully ending one a Stopped cell, and a crashing one a
Crashed cell with the error surfaced. -/
theorem claim_C1_register_start_mapping_witness :
    ((TokioActorDriver.default.register testActor 0 5).2).cell.state = ActorState.Healthy ∧
    ((TokioActorDriver.default.register gracefulActor 0 5).2).cell.state = ActorState.Stopped ∧
    ((TokioActorDriver.default.register crashingActor 0 5).2).cell.state = ActorState.Crashed ∧
    ((TokioActorDriver.default.register crashingActor 0 5).2).err = some "boom" := by
  refine ⟨?_, ?_, ?_, ?_⟩
  · exact ((claim_C1_register_start_mapping TokioActorDriver.default testActor 0 5).2.2.1 rfl).1
  · exact ((claim_C1_register_start_mapping TokioActorDriver.default gracefulActor 0 5).2.2.2.1 rfl).1
  · exact ((claim_C1_register_start_mapping TokioActorDriver.default crashingActor 0 5).2.2.2.2.1 "boom" rfl).1
  · exact ((claim_C1_register_start_mapping TokioActorDriver.default crashingActor 0 5).2.2.2.2.1 "boom" rfl).2

/-- C2: `send` reads the shared lifecycle state; when it is not Healthy it
returns `Err` carrying that state and leaves the cell (in particular the
channel queue) unchanged, so the message is never delivered — it cannot
appear among the messages the dispatch loop hands to `handle`; when the
state is Healthy it appends the message to the queue and returns `Ok(())`. -/
theorem claim_C2_send {σ μ ε : Type} (cell : ActorCell σ μ) (msg : μ) :
    (cell.state ≠ ActorState.Healthy →
      ActorRef.send cell msg = (Except.error cell.state, cell)) ∧
    (cell.state = ActorState.Healthy →
      ActorRef.send cell msg =
        (Except.ok (), { cell with queue := cell.queue ++ [msg] })) ∧
    (∀ (a : Actor σ μ ε) (running : Nat → Bool) (i : Nat),
      cell.state ≠ ActorState.Healthy → msg ∉ cell.queue →
      msg ∉ (dispatchLoop a running ((ActorRef.send cell msg).2).queue i
        ((ActorRef.send cell msg).2).state ((ActorRef.send cell msg).2).body).handled) := by
  refine ⟨?_, ?_, ?_⟩
  · intro h
    simp [ActorRef.send, h]
  · intro h
    simp [ActorRef.send, h]
  · intro a running i hdead hnotin
    have hcell : (ActorRef.send cell msg).2 = cell := by
      simp [ActorRef.send, hdead]
    rw [hcell]
    obtain ⟨t, ht⟩ :=
      dispatchLoop_handled_front a running cell.queue i cell.state cell.body
    intro hmem
    exact hnotin (ht ▸ List.mem_append.mpr (Or.inl hmem))

/-- Witness for C2: on a Stopped cell `send` fails with `Err(Stopped)` and
the message is never handled; on a Healthy cell it enqueues and succeeds. -/
theorem claim_C2_send_witness :
    ActorRef.send (⟨[], ActorState.Stopped, 0⟩ : ActorCell Nat Nat) 3 =
      (Except.error ActorState.Stopped, ⟨[], ActorState.Stopped, 0⟩) ∧
    ActorRef.send (⟨[], ActorState.Healthy, 0⟩ : ActorCell Nat Nat) 3 =
      (Except.ok (), ⟨[3], ActorState.Healthy, 0⟩) ∧
    3 ∉ (dispatchLoop testActor (fun _ => true)
      ((ActorRef.send (⟨[], ActorState.Stopped, 0⟩ : ActorCell Nat Nat) 3).2).queue 0
      ((ActorRef.send (⟨[], ActorState.Stopped, 0⟩ : ActorCell Nat Nat) 3).2).state
      ((ActorRef.send (⟨[], ActorState.Stopped, 0⟩ : ActorCell Nat Nat) 3).2).body).handled := by
  refine ⟨?_, ?_, ?_⟩
  · exact (@claim_C2_send Nat Nat String (⟨[], ActorState.Stopped, 0⟩ : ActorCell Nat Nat) 3).1
      (by decide)
  · exact (@claim_C2_send Nat Nat String (⟨[], ActorState.Healthy, 0⟩ : ActorCell Nat Nat) 3).2.1
      rfl
  · exact (@claim_C2_send Nat Nat String (⟨[], ActorState.Stopped, 0⟩ : ActorCell Nat Nat) 3).2.2
      testActor (fun _ => true) 0 (by decide) (by simp)

/-- C3: the state update the dispatch loop performs after each `handle`
invocation is exactly: Success leaves the state unchanged, GracefulEnd sets
Stopped, Crashing sets Crashed; the transition does not depend on the error
value carried by Crashing, and the loop's observable result (`LoopResult`
mentions no error type) surfaces the error nowhere. The last two conjuncts
show the loop records precisely this transition after handling a message. -/
theorem claim_C3_loop_state_update {σ μ ε : Type} (a : Actor σ μ ε) (b : σ) (m : μ) :
    (∀ st : ActorState,
      loopTransition st (Except.ok ActorOk.Success : ActorResult ε) = st) ∧
    (∀ st : ActorState,
      loopTransition st (Except.ok ActorOk.GracefulEnd : ActorResult ε) =
        ActorState.Stopped) ∧
    (∀ (st : ActorState) (e : ε),
      loopTransition st (Except.error (ActorErr.Crashing e)) = ActorState.Crashed) ∧
    (∀ (st : ActorState) (e e2 : ε),
      loopTransition st (Except.error (ActorErr.Crashing e)) =
        loopTransition st (Except.error (ActorErr.Crashing e2))) ∧
    ((dispatchLoop a (fun _ => true) [m] 0 ActorState.Healthy b).states =
      [loopTransition ActorState.Healthy (a.handle b m).1]) ∧
    ((dispatchLoop a (fun _ => true) [m] 0 ActorState.Healthy b).state =
      loopTransition ActorState.Healthy (a.handle b m).1) := by
  refine ⟨?_, ?_, ?_, ?_, ?_, ?_⟩
  · intro st; rfl
  · intro st; rfl
  · intro st e; rfl
  · intro st e e2; rfl
  · rw [dispatchLoop_cons_healthy_states a (fun _ => true) m [] 0 b rfl]; rfl
  · rw [dispatchLoop_cons_healthy_state a (fun _ => true) m [] 0 b rfl]; rfl

/-- C4: the lifecycle state machine is one-directional. `send` never writes
the state; every consecutive pair of states written by the dispatch loop is
either equal or a Healthy→Stopped / Healthy→Crashed step; and when the loop
observes a non-Healthy state it exits without writing (no states recorded, no
messages handled, state untouched). -/
theorem claim_C4_one_directional {σ μ ε : Type} (a : Actor σ μ ε)
    (running : Nat → Bool) (q : List μ) (i : Nat) (st : ActorState) (b : σ)
    (cell : ActorCell σ μ) (m : μ) :
    (((ActorRef.send cell m).2).state = cell.state) ∧
    (List.Chain' lifecycleStep (st :: (dispatchLoop a running q i st b).states)) ∧
    (st ≠ ActorState.Healthy →
      (dispatchLoop a running q i st b).states = [] ∧
      (dispatchLoop a running q i st b).handled = [] ∧
      (dispatchLoop a running q i st b).state = st) := by
  refine ⟨send_state_eq cell m, dispatchLoop_chain a running q i st b, ?_⟩
  intro h
  obtain ⟨h1, h2, h3, _⟩ := dispatchLoop_not_healthy a running q i st b h
  exact ⟨h2, h1, h3⟩

/-- Witness for C4: on a Crashed cell `send` leaves the state Crashed, and a
loop started in the Stopped state exits at once without handling messages. -/
theorem claim_C4_one_directional_witness :
    ((ActorRef.send (⟨[], ActorState.Crashed, 0⟩ : ActorCell Nat Nat) 5).2).state =
      ActorState.Crashed ∧
    (dispatchLoop testActor (fun _ => true) [1, 2] 0 ActorState.Stopped 0).states = [] ∧
    (dispatchLoop testActor (fun _ => true) [1, 2] 0 ActorState.Stopped 0).handled = [] ∧
    (dispatchLoop testActor (fun _ => true) [1, 2] 0 ActorState.Stopped 0).state =
      ActorState.Stopped := by
  have h := claim_C4_one_directional testActor (fun _ => true) [1, 2] 0
    ActorState.Stopped 0 (⟨[], ActorState.Crashed, 0⟩ : ActorCell Nat Nat) 5
  obtain ⟨h1, _, h3⟩ := h
  obtain ⟨h4, h5, h6⟩ := h3 (by decide)
  exact ⟨h1.trans rfl, h4, h5, h6⟩

/-- C5: a non-Healthy lifecycle state is terminal forever. If `start()`
yields GracefulEnd (resp. Crashing), `register` spawns no dispatch loop and
every `send` on the resulting handle — any number of them — returns
`Err(Stopped)` (resp. `Err(Crashed)`). Inside the loop, a non-Healthy state
written after a `handle` invocation is necessarily the last write: no further
`handle` invocation occurs (the handled count equals the position of that
write plus one), the final shared state is that written state, and every
subsequent `send` against it fails with the matching state. -/
theorem claim_C5_terminal_forever {σ μ ε : Type} (a : Actor σ μ ε) (b : σ)
    (d : TokioActorDriver) (ms : Nat) :
    ((a.start b).1 = Except.ok ActorOk.GracefulEnd →
      ((d.register a b ms).2).loop_spawned = false ∧
      ∀ msgs : List μ, (sendAll ((d.register a b ms).2).cell msgs).1 =
        msgs.map (fun _ => Except.error ActorState.Stopped)) ∧
    (∀ e : ε, (a.start b).1 = Except.error (ActorErr.Crashing e) →
      ((d.register a b ms).2).loop_spawned = false ∧
      ∀ msgs : List μ, (sendAll ((d.register a b ms).2).cell msgs).1 =
        msgs.map (fun _ => Except.error ActorState.Crashed)) ∧
    (∀ (running : Nat → Bool) (q : List μ) (i : Nat) (st : ActorState)
       (pre suf : List ActorState) (x : ActorState),
      (dispatchLoop a running q i st b).states = pre ++ x :: suf →
      x ≠ ActorState.Healthy →
      suf = [] ∧
      (dispatchLoop a running q i st b).handled.length = pre.length + 1 ∧
      (dispatchLoop a running q i st b).state = x ∧
      ∀ (msgs q2 : List μ) (b2 : σ),
        (sendAll (⟨q2, x, b2⟩ : ActorCell σ μ) msgs).1 =
          msgs.map (fun _ => Except.error x)) := by
  refine ⟨?_, ?_, ?_⟩
  · intro h
    obtain ⟨hstate, _, hspawn⟩ := register_graceful d a b ms h
    refine ⟨hspawn, ?_⟩
    intro msgs
    have := (sendAll_dead msgs ((d.register a b ms).2).cell
      (by rw [hstate]; exact fun hc => ActorState.noConfusion hc)).1
    rw [this, hstate]
  · intro e h
    obtain ⟨hstate, _, hspawn⟩ := register_crashing d a b ms e h
    refine ⟨hspawn, ?_⟩
    intro msgs
    have := (sendAll_dead msgs ((d.register a b ms).2).cell
      (by rw [hstate]; exact fun hc => ActorState.noConfusion hc)).1
    rw [this, hstate]
  · intro running q i st pre suf x hdecomp hx
    obtain ⟨h1, h2, h3⟩ :=
      dispatchLoop_nonhealthy_last a running q i st b pre suf x hdecomp hx
    refine ⟨h1, h3, h2, ?_⟩
    intro msgs q2 b2
    exact (sendAll_dead msgs (⟨q2, x, b2⟩ : ActorCell σ μ) hx).1

/-- Witness for C5: a gracefully-ending `start` and a crashing `start` both
leave a permanently dead handle; and after `crashOnSevenActor` crashes on the
message 7, the loop stops with exactly one message handled and later sends
fail with `Err(Crashed)`. -/
theorem claim_C5_terminal_forever_witness :
    ((TokioActorDriver.default.register gracefulActor 0 0).2).loop_spawned = false ∧
    (sendAll ((TokioActorDriver.default.register gracefulActor 0 0).2).cell [4, 5]).1 =
      [Except.error ActorState.Stopped, Except.error ActorState.Stopped] ∧
    ((TokioActorDriver.default.register crashingActor 0 0).2).loop_spawned = false ∧
    (sendAll ((TokioActorDriver.default.register crashingActor 0 0).2).cell [4]).1 =
      [Except.error ActorState.Crashed] ∧
    (dispatchLoop crashOnSevenActor (fun _ => true) [7, 3] 0
      ActorState.Healthy 0).handled.length = 1 ∧
    (dispatchLoop crashOnSevenActor (fun _ => true) [7, 3] 0
      ActorState.Healthy 0).state = ActorState.Crashed ∧
    (sendAll (⟨[], ActorState.Crashed, 0⟩ : ActorCell Nat Nat) [9]).1 =
      [Except.error ActorState.Crashed] := by
  have hg := (claim_C5_terminal_forever gracefulActor 0 TokioActorDriver.default 0).1 rfl
  have hc := (claim_C5_terminal_forever crashingActor 0 TokioActorDriver.default 0).2.1
    "boom" rfl
  have hl := (claim_C5_terminal_forever crashOnSevenActor 0 TokioActorDriver.default 0).2.2
    (fun _ => true) [7, 3] 0 ActorState.Healthy [] [] ActorState.Crashed
    (by decide) (by decide)
  refine ⟨hg.1, ?_, hc.1, ?_, ?_, hl.2.2.1, ?_⟩
  · rw [hg.2 [4, 5]]; rfl
  · rw [hc.2 [4]]; rfl
  · rw [hl.2.1]; rfl
  · rw [hl.2.2.2 [9] [] 0]; rfl

/-- C6: `stop()` only clears the global running flag (the snowflake counter —
the driver's only other datum — is untouched, and no queue or loop state
appears in its signature: nothing is drained or joined); after `stop()` the
facade's `is_running` reads false; and a dispatch loop that observes a false
flag at its polling boundary exits right there: nothing handled, no state
written, the whole queue left undrained. -/
theorem claim_C6_stop_cooperative {σ μ ε : Type} (a : Actor σ μ ε)
    (s : ActorSystem) (running : Nat → Bool) (q : List μ) (i : Nat)
    (st : ActorState) (b : σ) :
    ((s.stop).is_running = false) ∧
    ((s.stop).driver.sf_increment = s.driver.sf_increment) ∧
    (running i = false →
      dispatchLoop a running q i st b =
        ⟨[], [], st, b, q⟩) := by
  exact ⟨rfl, rfl, fun h => dispatchLoop_flag_false a running q i st b h⟩

/-- Witness for C6: stopping a running system clears `is_running`, and a loop
whose flag reads false at iteration 0 exits leaving both queued messages. -/
theorem claim_C6_stop_cooperative_witness :
    ((ActorSystem.mk ⟨3, true⟩).stop).is_running = false ∧
    ((ActorSystem.mk ⟨3, true⟩).stop).driver.sf_increment = 3 ∧
    dispatchLoop testActor (fun _ => false) [1, 2] 0 ActorState.Healthy 0 =
      ⟨[], [], ActorState.Healthy, 0, [1, 2]⟩ := by
  have h := claim_C6_stop_cooperative testActor (ActorSystem.mk ⟨3, true⟩)
    (fun _ => false) [1, 2] 0 ActorState.Healthy 0
  exact ⟨h.1, h.2.1.trans rfl, h.2.2 rfl⟩

/-- C7: per-actor processing is strict FIFO relative to one handle's sends.
Sequential sends on a Healthy cell enqueue in exactly the given order; the
messages the loop hands to `handle` are always a prefix of the channel
contents in enqueue order; the final body results from folding `handle` over
that prefix left-to-right (one invocation at a time, each consuming the
previous invocation's state); and when the flag stays true and every outcome
is Success, every enqueued message is handled, in order. -/
theorem claim_C7_fifo {σ μ ε : Type} (a : Actor σ μ ε) (running : Nat → Bool)
    (q msgs : List μ) (i : Nat) (st : ActorState) (b : σ) (cell : ActorCell σ μ) :
    (cell.state = ActorState.Healthy →
      (sendAll cell msgs).2.queue = cell.queue ++ msgs) ∧
    (∃ t, q = (dispatchLoop a running q i st b).handled ++ t) ∧
    ((dispatchLoop a running q i st b).body =
      (dispatchLoop a running q i st b).handled.foldl (fun s m => (a.handle s m).2) b) ∧
    ((∀ j, running j = true) →
      (∀ (s : σ) (m : μ), (a.handle s m).1 = Except.ok ActorOk.Success) →
      (dispatchLoop a running q i ActorState.Healthy b).handled = q) := by
  refine ⟨?_, dispatchLoop_handled_front a running q i st b,
    dispatchLoop_body_foldl a running q i st b, ?_⟩
  · intro h
    rw [(sendAll_healthy msgs cell h).2]
  · intro hrun hsucc
    exact dispatchLoop_all_success a running hrun hsucc q i b

/-- Witness for C7: sending `[1, 2, 3]` through a fresh Healthy handle
enqueues exactly `[1, 2, 3]`, and a loop over that queue with the flag up and
an always-Success actor handles exactly `[1, 2, 3]` in order, folding the
body accordingly. -/
theorem claim_C7_fifo_witness :
    (sendAll (⟨[], ActorState.Healthy, 0⟩ : ActorCell Nat Nat) [1, 2, 3]).2.queue =
      [1, 2, 3] ∧
    (dispatchLoop testActor (fun _ => true) [1, 2, 3] 0 ActorState.Healthy 0).handled =
      [1, 2, 3] ∧
    (dispatchLoop testActor (fun _ => true) [1, 2, 3] 0 ActorState.Healthy 0).body =
      List.foldl (fun s m => (testActor.handle s m).2) 0 [1, 2, 3] := by
  have h := claim_C7_fifo testActor (fun _ => true) [1, 2, 3] [1, 2, 3] 0
    ActorState.Healthy 0 (⟨[], ActorState.Healthy, 0⟩ : ActorCell Nat Nat)
  refine ⟨(h.1 rfl).trans rfl, ?_, ?_⟩
  · have h4 := h.2.2.2 (fun _ => rfl) (fun _ _ => rfl)
    exact h4
  · have h3 := h.2.2.1
    rw [h.2.2.2 (fun _ => rfl) (fun _ _ => rfl)] at h3
    exact h3

/-- C8: the default-constructed driver has the running flag false, no
operation (`register` preserves it, `stop` clears it) ever sets it true, so
after any sequence of operations the driver's — and the facade's —
`is_running` is still false, and a dispatch loop reading that flag exits at
its first polling boundary before handling any message. -/
theorem claim_C8_running_never_true {σ μ ε : Type} (a a2 : Actor σ μ ε) (b b2 : σ)
    (d : TokioActorDriver) (ms : Nat) (ops : List (DriverOp σ μ ε))
    (q : List μ) (i : Nat) (st : ActorState) :
    (TokioActorDriver.default.is_running = false) ∧
    (((d.register a b ms).1).is_running = d.is_running) ∧
    ((d.stop).is_running = false) ∧
    ((applyDriverOps TokioActorDriver.default ops).is_running = false) ∧
    ((ActorSystem.mk (applyDriverOps TokioActorDriver.default ops)).is_running = false) ∧
    (dispatchLoop a2 (fun _ => (applyDriverOps TokioActorDriver.default ops).is_running)
        q i st b2 = ⟨[], [], st, b2, q⟩) := by
  have hrun := applyDriverOps_running_false ops TokioActorDriver.default rfl
  refine ⟨rfl, rfl, rfl, hrun, hrun, ?_⟩
  exact dispatchLoop_flag_false a2 _ q i st b2 hrun

/-- C9 counterexample: the claim "handles returned by two separate register
calls never compare equal" is false. Starting from the default driver and
registering repeatedly within the same millisecond (`nowMs = 0`), the handle
from the 1st register call and the handle from the 65537th (after the 16-bit
counter has wrapped) compare equal. -/
theorem claim_C9_counterexample :
    ActorRef.beq (((TokioActorDriver.default.register testActor 0 0).2).ref)
      ((((regIter 65536).register testActor 0 0).2).ref) = true := by
  have h1 := register_ref_id TokioActorDriver.default testActor 0 0
  have h2 := register_ref_id (regIter 65536) testActor 0 0
  rw [regIter_increment 65536] at h2
  simp only [ActorRef.beq]
  rw [h1, h2]
  norm_num [TokioActorDriver.default]

/-- C9 (amended): handle equality is by id alone; any clone of a handle
compares equal to it; and handles from two separate register calls compare
unequal provided their snowflake inputs differ without wraparound — elapsed
milliseconds below 2^48 and counter values below 2^16 with the two
(millisecond, counter) pairs distinct. (Once the 16-bit counter wraps inside
one millisecond the pair repeats and the ids collide, as the counterexample
shows.) -/
theorem claim_C9_amended {σ μ ε : Type} (a a2 : Actor σ μ ε) (b b2 : σ)
    (d d2 : TokioActorDriver) (r : ActorRef) (m1 m2 : Nat)
    (h1 : m1 < 2 ^ 48) (h2 : m2 < 2 ^ 48)
    (hc1 : d.sf_increment < 2 ^ 16) (hc2 : d2.sf_increment < 2 ^ 16)
    (hne : m1 ≠ m2 ∨ d.sf_increment ≠ d2.sf_increment) :
    ActorRef.beq (ActorRef.clone r) r = true ∧
    ActorRef.beq (((d.register a b m1).2).ref)
      (((d2.register a2 b2 m2).2).ref) = false := by
  constructor
  · simp [ActorRef.clone, ActorRef.beq]
  · have e1 := register_ref_id d a b m1
    have e2 := register_ref_id d2 a2 b2 m2
    rw [Nat.mod_eq_of_lt h1, Nat.mod_eq_of_lt hc1] at e1
    rw [Nat.mod_eq_of_lt h2, Nat.mod_eq_of_lt hc2] at e2
    simp only [ActorRef.beq, e1, e2, beq_eq_false_iff_ne, ne_eq]
    have hp : (2 : Nat) ^ 16 = 65536 := by norm_num
    rw [hp]
    rw [hp] at hc1 hc2
    intro heq
    rcases hne with h | h
    · exact h (by omega)
    · exact h (by omega)

/-- Witness for C9 (amended): a clone compares equal to its original, and two
register calls in the same millisecond with distinct non-wrapped counter
values yield unequal handles. -/
theorem claim_C9_amended_witness :
    ActorRef.beq (ActorRef.clone ⟨42, 0⟩) ⟨42, 0⟩ = true ∧
    ActorRef.beq ((((TokioActorDriver.mk 5 false).register testActor 0 3).2).ref)
      ((((TokioActorDriver.mk 6 false).register testActor 0 3).2).ref) = false := by
  have h := claim_C9_amended testActor testActor 0 0 (TokioActorDriver.mk 5 false)
    (TokioActorDriver.mk 6 false) ⟨42, 0⟩ 3 3 (by norm_num) (by norm_num)
    (by norm_num) (by norm_num) (Or.inr (by norm_num))
  exact h

/-- C10: the id generator packs the elapsed milliseconds (below 2^48) into
the high 48 bits and the 16-bit counter into the low 16 bits; each call
steps the counter with silent wraparound at 65536 (`(c + 1) % 2^16`); and in
a sequence of 65537 generations within one millisecond the 1st and 65537th
ids collide. Stated for both `SnowflakeProducer::produce` (src/utils.rs) and
`TokioActorDriver::generate_snowflake` (src/tokio_impl.rs), which use the
same formula. -/
theorem claim_C10_snowflake (p : SnowflakeProducer) (d : TokioActorDriver)
    (ms : Nat) (h48 : ms < 2 ^ 48) :
    ((p.produce ms).1 / 2 ^ 16 = ms) ∧
    ((p.produce ms).1 % 2 ^ 16 = p.increment % 2 ^ 16) ∧
    (((p.produce ms).2).increment = (p.increment + 1) % 2 ^ 16) ∧
    ((d.generate_snowflake ms).1 / 2 ^ 16 = ms) ∧
    ((d.generate_snowflake ms).1 % 2 ^ 16 = d.sf_increment % 2 ^ 16) ∧
    (((d.generate_snowflake ms).2).sf_increment = (d.sf_increment + 1) % 2 ^ 16) ∧
    (∀ ms2 : Nat,
      ((produceIter ms2 0).produce ms2).1 = ((produceIter ms2 65536).produce ms2).1) := by
  have hp : (2 : Nat) ^ 16 = 65536 := by norm_num
  have hv1 := produce_val p ms
  have hv2 := generate_snowflake_val d ms
  rw [Nat.mod_eq_of_lt h48] at hv1 hv2
  rw [hp] at hv1 hv2
  refine ⟨?_, ?_, rfl, ?_, ?_, rfl, ?_⟩
  · rw [hv1, hp]; omega
  · rw [hv1, hp]; omega
  · rw [hv2, hp]; omega
  · rw [hv2, hp]; omega
  · intro ms2
    rw [produce_val, produce_val, produceIter_increment, produceIter_increment]
    norm_num

/-- Witness for C10: a producer with counter 3 at 5 ms yields an id with
high bits 5 and low bits 3; the driver generator with counter 7 matches. -/
theorem claim_C10_snowflake_witness :
    ((SnowflakeProducer.mk 3).produce 5).1 / 2 ^ 16 = 5 ∧
    ((SnowflakeProducer.mk 3).produce 5).1 % 2 ^ 16 = 3 ∧
    ((TokioActorDriver.mk 7 false).generate_snowflake 5).1 / 2 ^ 16 = 5 ∧
    ((TokioActorDriver.mk 7 false).generate_snowflake 5).1 % 2 ^ 16 = 7 := by
  have h := claim_C10_snowflake (SnowflakeProducer.mk 3) (TokioActorDriver.mk 7 false)
    5 (by norm_num)
  exact ⟨h.1, h.2.1.trans (by norm_num), h.2.2.2.1, h.2.2.2.2.1.trans (by norm_num)⟩
